import Mathlib

/-!
Verification of the mfn-mvp invoice system core: the ingestion pipeline in
`app/core/rag_pipeline.py` (duplicate detection via SHA-256 fingerprints,
dual-model classification, record building, index upload) and the question
answering graph in `app/core/graph.py` (router, filter synthesis, balance
aggregation, answer composition).

The Python code is shallowly embedded: each method becomes a Lean function
over explicit data; calls to external Azure services (document analysis,
search index, text generation) are modelled by environment records that fix
the reply each external call would produce, with `Except` capturing calls
that raise.  Python `float` values are modelled as rationals (`ℚ`).
-/

/-! ## Character and string helpers shared by the embedding -/

/-- The ASCII digit characters; `isDig c` models `c` being a digit as accepted
by Python's `float` literal syntax. -/
def isDig (c : Char) : Bool :=
  c ∈ ['0', '1', '2', '3', '4', '5', '6', '7', '8', '9']

/-- Python's `str.strip()` whitespace set (the ASCII part; the extracted field
contents handled by the pipeline are ASCII-ish). -/
def isWs (c : Char) : Bool :=
  c ∈ [' ', '\t', '\n', '\r', '\x0b', '\x0c']

/-- `s.replace(a, "")` for a single-character pattern `a`: drop every
occurrence. -/
def removeChar (a : Char) (l : List Char) : List Char :=
  l.filter (fun c => c ≠ a)

/-- `s.replace(a, b)` for single-character pattern and replacement: map every
occurrence of `a` to `b`. -/
def replaceChar (a b : Char) (l : List Char) : List Char :=
  l.map (fun c => if c = a then b else c)

/-- Python `str.strip()`: drop leading and trailing whitespace. -/
def pyStrip (l : List Char) : List Char :=
  ((l.dropWhile isWs).reverse.dropWhile isWs).reverse

/-- `pyStrip` lifted to `String` (models `str.strip()` on `String` values). -/
def pyStripStr (s : String) : String :=
  String.mk (pyStrip s.data)

/-- Numeric value of a digit character. -/
def digitVal (c : Char) : Nat := c.toNat - 48

/-- Value of a most-significant-first digit string, e.g.
`digitsToNat ['1','2','3'] = 123`. -/
def digitsToNat (l : List Char) : Nat :=
  l.foldl (fun n c => 10 * n + digitVal c) 0

/-- Split a character list at every `'.'` (mirrors `str.split('.')`:
`splitDots [] = [[]]`, and each dot opens a new segment). -/
def splitDots : List Char → List (List Char)
  | [] => [[]]
  | c :: cs =>
    if c = '.' then [] :: splitDots cs
    else
      match splitDots cs with
      | [] => [[c]]
      | p :: ps => (c :: p) :: ps

/-- Negate when the flag is set (the sign of a parsed float literal). -/
def applySign (neg : Bool) (q : ℚ) : ℚ := if neg then -q else q

/-- Models the decimal-literal fragment of Python's `float(s)` on the strings
this pipeline can feed it: optional surrounding whitespace, an optional sign,
then digits with at most one `'.'` and at least one digit.  Any other string
(several dots, stray letters, empty, bare `"."`) makes `float` raise
`ValueError`, modelled as `none`.  (Exponents, `inf`/`nan` and underscore
separators never reach this call site and are outside the model.)  The value
`ip.fp` is built with `mkRat` on the common denominator `10 ^ fp.length`;
`parseFloat_frac_eq` below restates it as the usual sum `ip + fp / 10 ^ k`. -/
def parseFloat (l : List Char) : Option ℚ :=
  let t := pyStrip l
  let neg := t.head? = some '-'
  let m := if t.head? = some '-' ∨ t.head? = some '+' then t.tail else t
  match splitDots m with
  | [ip] =>
    if ip ≠ [] ∧ ip.all isDig then
      some (applySign neg (mkRat (digitsToNat ip) 1))
    else none
  | [ip, fp] =>
    if (ip ≠ [] ∨ fp ≠ []) ∧ ip.all isDig ∧ fp.all isDig then
      some (applySign neg
        (mkRat (digitsToNat ip * 10 ^ fp.length + digitsToNat fp) (10 ^ fp.length)))
    else none
  | _ => none

/-- Core of `clean_currency` (rag_pipeline.py lines 148-152) on the character
list of `str(value)`:
`float(str(value).replace("$", "").strip().replace(".", "").replace(",", "."))`
with a `ValueError`/`TypeError` falling back to `0.0`. -/
def clean_currency_chars (l : List Char) : ℚ :=
  match parseFloat (replaceChar ',' '.' (removeChar '.' (pyStrip (removeChar '$' l)))) with
  | some q => q
  | none => 0

/-- `clean_currency(value)` from `_extract_invoice_fields`: `None` returns
`0.0`, otherwise the string content is cleaned and parsed. -/
def clean_currency : Option String → ℚ
  | none => 0
  | some s => clean_currency_chars s.data

/-! ## SHA-256 (`_calculate_file_hash`, rag_pipeline.py lines 34-38)

`hashlib.sha256(file_bytes).hexdigest()` is embedded in full: FIPS 180-4
SHA-256 over a byte list (each byte a `Nat < 256`), rendered as lowercase hex.
32-bit machine words are `Nat` reduced by `% 2 ^ 32`. -/

/-- Truncate to a 32-bit word. -/
def w32 (n : Nat) : Nat := n % 4294967296

/-- 32-bit right rotation. -/
def rotr (n x : Nat) : Nat := w32 ((x >>> n) ||| (x <<< (32 - n)))

/-- The 64 SHA-256 round constants of FIPS 180-4 (decimal rendering of the
fractional parts of the cube roots of the first 64 primes). -/
def sha256K : List Nat :=
  [1116352408, 1899447441, 3049323471, 3921009573, 961987163,
   1508970993, 2453635748, 2870763221, 3624381080, 310598401,
   607225278, 1426881987, 1925078388, 2162078206, 2614888103,
   3248222580, 3835390401, 4022224774, 264347078, 604807628,
   770255983, 1249150122, 1555081692, 1996064986, 2554220882,
   2821834349, 2952996808, 3210313671, 3336571891, 3584528711,
   113926993, 338241895, 666307205, 773529912, 1294757372,
   1396182291, 1695183700, 1986661051, 2177026350, 2456956037,
   2730485921, 2820302411, 3259730800, 3345764771, 3516065817,
   3600352804, 4094571909, 275423344, 430227734, 506948616,
   659060556, 883997877, 958139571, 1322822218, 1537002063,
   1747873779, 1955562222, 2024104815, 2227730452, 2361852424,
   2428436474, 2756734187, 3204031479, 3329325298]

/-- The eight 32-bit working variables of SHA-256. -/
structure Sha256State where
  a : Nat
  b : Nat
  c : Nat
  d : Nat
  e : Nat
  f : Nat
  g : Nat
  h : Nat
  deriving DecidableEq

/-- SHA-256 initial hash value (decimal rendering). -/
def sha256H0 : Sha256State :=
  ⟨1779033703, 3144134277, 1013904242, 2773480762,
   1359893119, 2600822924, 528734635, 1541459225⟩

/-- Big-endian 8-byte encoding of a (< 2^64) length value. -/
def be64 (n : Nat) : List Nat :=
  [n >>> 56 % 256, n >>> 48 % 256, n >>> 40 % 256, n >>> 32 % 256,
   n >>> 24 % 256, n >>> 16 % 256, n >>> 8 % 256, n % 256]

/-- SHA-256 message padding: append `0x80`, zero-pad to 56 mod 64, then the
bit length as 8 big-endian bytes. -/
def sha256pad (msg : List Nat) : List Nat :=
  msg ++ 0x80 :: List.replicate ((119 - msg.length % 64) % 64) 0 ++ be64 (8 * msg.length)

/-- Split into 64-byte chunks; the fuel argument (instantiated with the list
length, which is an upper bound on the number of chunks) keeps the recursion
structural so that concrete hashes reduce inside the kernel. -/
def chunks64Go : Nat → List Nat → List (List Nat)
  | _, [] => []
  | 0, l => [l]
  | fuel + 1, l => l.take 64 :: chunks64Go fuel (l.drop 64)

/-- Split a padded message into 64-byte chunks. -/
def chunks64 (l : List Nat) : List (List Nat) := chunks64Go l.length l

/-- Big-endian 32-bit word `i` of a 64-byte chunk. -/
def be32At (c : List Nat) (i : Nat) : Nat :=
  w32 ((c.getD (4 * i) 0) <<< 24 ||| (c.getD (4 * i + 1) 0) <<< 16 |||
       (c.getD (4 * i + 2) 0) <<< 8 ||| c.getD (4 * i + 3) 0)

/-- SHA-256 small sigma 0. -/
def ssig0 (x : Nat) : Nat := rotr 7 x ^^^ rotr 18 x ^^^ (x >>> 3)

/-- SHA-256 small sigma 1. -/
def ssig1 (x : Nat) : Nat := rotr 17 x ^^^ rotr 19 x ^^^ (x >>> 10)

/-- The 64-word message schedule of a chunk. -/
def sha256schedule (c : List Nat) : List Nat :=
  (List.range 48).foldl
    (fun ws _ =>
      let n := ws.length
      ws ++ [w32 (ssig1 (ws.getD (n - 2) 0) + ws.getD (n - 7) 0 +
                  ssig0 (ws.getD (n - 15) 0) + ws.getD (n - 16) 0)])
    ((List.range 16).map (be32At c))

/-- One SHA-256 compression round. -/
def sha256round (t : Sha256State) (ki wi : Nat) : Sha256State :=
  let s1 := rotr 6 t.e ^^^ rotr 11 t.e ^^^ rotr 25 t.e
  let ch := (t.e &&& t.f) ^^^ ((t.e ^^^ 4294967295) &&& t.g)
  let temp1 := w32 (t.h + s1 + ch + ki + wi)
  let s0 := rotr 2 t.a ^^^ rotr 13 t.a ^^^ rotr 22 t.a
  let maj := (t.a &&& t.b) ^^^ (t.a &&& t.c) ^^^ (t.b &&& t.c)
  let temp2 := w32 (s0 + maj)
  ⟨w32 (temp1 + temp2), t.a, t.b, t.c, w32 (t.d + temp1), t.e, t.f, t.g⟩

/-- Compress one 64-byte chunk into the running hash state. -/
def sha256compress (st : Sha256State) (chunk : List Nat) : Sha256State :=
  let fin := (sha256K.zip (sha256schedule chunk)).foldl (fun t p => sha256round t p.1 p.2) st
  ⟨w32 (st.a + fin.a), w32 (st.b + fin.b), w32 (st.c + fin.c), w32 (st.d + fin.d),
   w32 (st.e + fin.e), w32 (st.f + fin.f), w32 (st.g + fin.g), w32 (st.h + fin.h)⟩

/-- Big-endian 4-byte rendering of a 32-bit word. -/
def be32out (x : Nat) : List Nat := [x >>> 24 % 256, x >>> 16 % 256, x >>> 8 % 256, x % 256]

/-- The 32-byte SHA-256 digest of a byte list. -/
def sha256bytes (msg : List Nat) : List Nat :=
  let fin := (chunks64 (sha256pad msg)).foldl sha256compress sha256H0
  be32out fin.a ++ be32out fin.b ++ be32out fin.c ++ be32out fin.d ++
  be32out fin.e ++ be32out fin.f ++ be32out fin.g ++ be32out fin.h

/-- Lowercase hex digit. -/
def hexChar (n : Nat) : Char := if n < 10 then Char.ofNat (48 + n) else Char.ofNat (87 + n)

/-- Two lowercase hex digits of a byte. -/
def byteHex (b : Nat) : List Char := [hexChar (b / 16 % 16), hexChar (b % 16)]

/-- `hashlib.sha256(msg).hexdigest()`. -/
def sha256hex (msg : List Nat) : String :=
  String.mk ((sha256bytes msg).map byteHex).flatten

/-- `_calculate_file_hash` (rag_pipeline.py lines 34-38): the SHA-256 hex
digest of the raw file bytes, used as the duplicate-detection fingerprint. -/
def _calculate_file_hash (file_bytes : List Nat) : String := sha256hex file_bytes

set_option maxRecDepth 10000 in
/-- Sanity check of the embedding against the FIPS 180-4 test vector for
`"abc"`. -/
theorem sha256hex_abc :
    sha256hex [97, 98, 99] =
      "ba7816bf8f01cfea414140de5dae2223b00361a396177a9cb410ff61f20015ad" := by
  decide

theorem sha256bytes_length (msg : List Nat) : (sha256bytes msg).length = 32 := by
  simp [sha256bytes, be32out]

theorem flatten_map_byteHex_length (l : List Nat) :
    ((l.map byteHex).flatten).length = 2 * l.length := by
  induction l with
  | nil => simp
  | cons x xs ih => simp [byteHex, ih]; omega

theorem sha256hex_length (msg : List Nat) : (sha256hex msg).length = 64 := by
  show (((sha256bytes msg).map byteHex).flatten).length = 64
  rw [flatten_map_byteHex_length, sha256bytes_length]

theorem sha256hex_ne_empty (msg : List Nat) : sha256hex msg ≠ "" := by
  intro h
  have h64 := sha256hex_length msg
  rw [h] at h64
  simp at h64

/-! ## Document analysis and the ingestion pipeline (rag_pipeline.py)

External Azure calls are modelled by an environment record fixing the answer
each call would produce; `Except.error` models a call that raises. -/

/-- Custom model id for issued invoices (rag_pipeline.py line 20). -/
def MODELO_EMITIDAS : String := "opendoors-emitidas-custom"

/-- Custom model id for received invoices (rag_pipeline.py line 21). -/
def MODELO_RECIBIDAS : String := "opendoors-recibidas-custom"

/-- One extracted document of an analysis result: detected `doc_type`,
confidence in `[0,1]` (a Python float, modelled as `ℚ`) and the extracted
fields as an association list from field name to `field.content`. -/
structure AnalyzedDocument where
  doc_type : String
  confidence : ℚ
  fields : List (String × String)
  deriving DecidableEq

/-- The result object of `begin_analyze_document(...).result()`.  A falsy
(`None`) result behaves in `_analyze_with_model` exactly like one with an
empty `documents` list, so it is modelled by `documents = []`. -/
structure AnalysisResult where
  documents : List AnalyzedDocument
  deriving DecidableEq

/-- What one call to the external document-analysis service does:
it returns a result, raises `HttpResponseError`, or raises some other
exception. -/
inductive AnalyzeOutcome where
  | ok (result : AnalysisResult)
  | httpError (message : String)
  | unexpectedError (message : String)
  deriving DecidableEq

/-- The acceptance threshold `0.95` of rag_pipeline.py line 72 (written with
`mkRat` so that concrete runs reduce; `confidenceThreshold_eq` restates it as
`95 / 100`). -/
def confidenceThreshold : ℚ := mkRat 95 100

/-- `_analyze_with_model` (rag_pipeline.py lines 53-86): accept the result
only if it holds at least one document whose `doc_type` equals the model id
(the expected label) with confidence strictly above the threshold; a rejected
or `HttpResponseError` attempt yields `none`; any other exception is
re-raised, modelled as `Except.error`. -/
def _analyze_with_model (model_id : String) (call : AnalyzeOutcome) :
    Except String (Option AnalysisResult) :=
  match call with
  | .ok result =>
    match result.documents with
    | [] => .ok none
    | document :: _ =>
      if document.doc_type = model_id ∧ confidenceThreshold < document.confidence then
        .ok (some result)
      else
        .ok none
  | .httpError _ => .ok none
  | .unexpectedError msg => .error msg

/-- `_is_duplicate` (rag_pipeline.py lines 40-51): the duplicate-check search
returns a hit count, or raises; on any exception the method logs and returns
`True` (fail closed). -/
def _is_duplicate (searchCall : Except String Nat) : Bool :=
  match searchCall with
  | .ok count => decide (0 < count)
  | .error _ => true

/-- `get_field_value` inside `_extract_invoice_fields`: dictionary lookup of
the field, returning its `content` when present. -/
def get_field_value (fields : List (String × String)) (field_name : String) :
    Option String :=
  (fields.find? (fun p => p.1 = field_name)).map (fun p => p.2)

/-- Python's `x or default` on an optional string: `None` and the empty
string are both falsy and fall back to the default. -/
def pyOrStr (x : Option String) (default : String) : String :=
  match x with
  | none => default
  | some s => if s = "" then default else s

/-- The cleaned invoice fields dictionary built by `_extract_invoice_fields`
(rag_pipeline.py lines 156-159). -/
structure InvoiceData where
  VendorName : String
  InvoiceDate : String
  InvoiceTotal : ℚ
  TotalTax : ℚ
  deriving DecidableEq

/-- `_extract_invoice_fields` (rag_pipeline.py lines 141-164): an empty
`documents` list yields the empty dict (modelled `none`); otherwise the four
fields of the first document are extracted, text fields defaulting to
`"N/A"` and currency fields going through `clean_currency`. -/
def _extract_invoice_fields (analysis_result : AnalysisResult) : Option InvoiceData :=
  match analysis_result.documents with
  | [] => none
  | document :: _ =>
    let fields := document.fields
    some
      { VendorName := pyOrStr (get_field_value fields "VendorName") "N/A"
        InvoiceDate := pyOrStr (get_field_value fields "InvoiceDate") "N/A"
        InvoiceTotal := clean_currency (get_field_value fields "InvoiceTotal")
        TotalTax := clean_currency (get_field_value fields "TotalTax") }

/-- Models `json.dumps(invoice_data)` for the `content` field.  The numeric
rendering delegates to `toString` on `ℚ`, abstracting Python's float `repr`;
no verified claim inspects this string. -/
def jsonOfInvoiceData : Option InvoiceData → String
  | none => "\x7b\x7d"
  | some d =>
    "\x7b\"VendorName\": \"" ++ d.VendorName ++ "\", \"InvoiceDate\": \"" ++
      d.InvoiceDate ++ "\", \"InvoiceTotal\": " ++ toString d.InvoiceTotal ++
      ", \"TotalTax\": " ++ toString d.TotalTax ++ "\x7d"

/-- The dictionary uploaded to the search index, built by
`_create_structured_document` (rag_pipeline.py lines 166-185). -/
structure StructuredDocument where
  id : String
  content : String
  VendorName : String
  InvoiceDate : String
  InvoiceTotal : ℚ
  TotalTax : ℚ
  source_file : String
  document_type : String
  processed_at : String
  InvoiceType : String
  PartnerName : String
  file_hash : String
  deriving DecidableEq

/-- `_create_structured_document` (rag_pipeline.py lines 166-185).  The
`uuid4().hex` value and the UTC timestamp are nondeterministic inputs,
passed in explicitly. -/
def _create_structured_document (uuidHex timestamp : String)
    (invoice_data : Option InvoiceData)
    (file_path invoice_type partner_name file_hash : String) : StructuredDocument :=
  { id := "invoice_" ++ uuidHex
    content := jsonOfInvoiceData invoice_data
    VendorName := (invoice_data.map InvoiceData.VendorName).getD "N/A"
    InvoiceDate := (invoice_data.map InvoiceData.InvoiceDate).getD "N/A"
    InvoiceTotal := (invoice_data.map InvoiceData.InvoiceTotal).getD 0
    TotalTax := (invoice_data.map InvoiceData.TotalTax).getD 0
    source_file := file_path
    document_type := "invoice"
    processed_at := timestamp
    InvoiceType := invoice_type
    PartnerName := partner_name
    file_hash := file_hash }

/-- One element of the list returned by `upload_documents`. -/
structure UploadItem where
  succeeded : Bool
  error_message : Option String
  deriving DecidableEq

/-- `bool(upload_result and len(upload_result) > 0 and upload_result[0].succeeded)`
(rag_pipeline.py line 128). -/
def uploadSucceeded : List UploadItem → Bool
  | [] => false
  | item :: _ => item.succeeded

/-- The dictionary returned by `process_and_upload_invoice`: `success` plus
whichever of the keys `error`, `message`, `invoice_data`, `invoice_type` the
taken branch includes (`none` models an absent key). -/
structure PipelineOutcome where
  success : Bool
  error : Option String
  message : Option String
  invoice_data : Option (Option InvoiceData)
  invoice_type : Option String
  deriving DecidableEq

/-- An observable call to an external service made during an ingestion run:
the duplicate-check search, a document analysis with a given model, or an
index upload of a record. -/
inductive PipelineEvent where
  | dupCheck (file_hash : String)
  | analyze (model_id : String)
  | upload (doc : StructuredDocument)
  deriving DecidableEq

/-- Environment of one `process_and_upload_invoice` run: the file bytes and
call arguments, plus the reply of each external call the run could make. -/
structure PipelineEnv where
  file_bytes : List Nat
  file_path : String
  partner_name : String
  uuidHex : String
  timestamp : String
  dupQuery : Except String Nat
  emitidasCall : AnalyzeOutcome
  recibidasCall : AnalyzeOutcome
  uploadCall : Except String (List UploadItem)

/-- The message of the duplicate outcome (rag_pipeline.py line 102). -/
def duplicateMessage : String := "Esta factura ya fue cargada anteriormente."

/-- The `ValueError` text raised when no model accepts (line 120); the outer
handler turns it into `{"success": False, "error": str(e)}`. -/
def classificationFailedMessage : String :=
  "No se pudo analizar la factura con ninguno de los modelos disponibles."

/-- The early-return duplicate outcome (rag_pipeline.py line 102). -/
def duplicateOutcome : PipelineOutcome :=
  { success := false, error := some "duplicate", message := some duplicateMessage
    invoice_data := none, invoice_type := none }

/-- The catch-all outcome `{"success": False, "error": str(e)}`
(rag_pipeline.py line 139). -/
def exceptionOutcome (msg : String) : PipelineOutcome :=
  { success := false, error := some msg, message := none
    invoice_data := none, invoice_type := none }

/-- Extraction, record building and upload (rag_pipeline.py lines 122-135),
shared by the two accepted-classification branches.  An exception from
`upload_documents` is caught by the outer handler. -/
def finishUpload (env : PipelineEnv) (file_hash : String) (result : AnalysisResult)
    (invoice_type : String) (events : List PipelineEvent) :
    PipelineOutcome × List PipelineEvent :=
  let invoice_data := _extract_invoice_fields result
  let doc := _create_structured_document env.uuidHex env.timestamp invoice_data
    env.file_path invoice_type env.partner_name file_hash
  match env.uploadCall with
  | .error msg => (exceptionOutcome msg, events ++ [.upload doc])
  | .ok items =>
    ({ success := uploadSucceeded items, error := none, message := none
       invoice_data := some invoice_data, invoice_type := some invoice_type },
     events ++ [.upload doc])

/-- `process_and_upload_invoice` (rag_pipeline.py lines 88-139): hash, abort
on duplicate, try the emitidas model then the recibidas model, build and
upload the record.  Returns the outcome dictionary together with the trace
of external calls made. -/
def process_and_upload_invoice (env : PipelineEnv) :
    PipelineOutcome × List PipelineEvent :=
  let file_hash := _calculate_file_hash env.file_bytes
  if _is_duplicate env.dupQuery then
    (duplicateOutcome, [.dupCheck file_hash])
  else
    match _analyze_with_model MODELO_EMITIDAS env.emitidasCall with
    | .error msg =>
      (exceptionOutcome msg, [.dupCheck file_hash, .analyze MODELO_EMITIDAS])
    | .ok (some result) =>
      finishUpload env file_hash result "ingreso"
        [.dupCheck file_hash, .analyze MODELO_EMITIDAS]
    | .ok none =>
      match _analyze_with_model MODELO_RECIBIDAS env.recibidasCall with
      | .error msg =>
        (exceptionOutcome msg,
         [.dupCheck file_hash, .analyze MODELO_EMITIDAS, .analyze MODELO_RECIBIDAS])
      | .ok (some result) =>
        finishUpload env file_hash result "egreso"
          [.dupCheck file_hash, .analyze MODELO_EMITIDAS, .analyze MODELO_RECIBIDAS]
      | .ok none =>
        (exceptionOutcome classificationFailedMessage,
         [.dupCheck file_hash, .analyze MODELO_EMITIDAS, .analyze MODELO_RECIBIDAS])

/-- `query_invoices` (rag_pipeline.py lines 187-197): run the filtered
search, returning its records; any exception is caught and yields `[]`. -/
def query_invoices {α : Type} (searchCall : Except String (List α)) : List α :=
  match searchCall with
  | .ok results => results
  | .error _ => []

/-- The records uploaded during a run: the trace restricted to upload
events. -/
def uploads (events : List PipelineEvent) : List StructuredDocument :=
  events.filterMap (fun e =>
    match e with
    | .upload doc => some doc
    | _ => none)

/-! ## The question-answering agent graph (graph.py)

The LangGraph wiring of `_build_graph` is embedded as the explicit
composition of the node functions along the conditional edges of
`decide_path`.  Calls to the text-generation service are modelled by
environment fields (`Except.error` models a raised exception) and recorded
in a trace of `GenCall` events. -/

/-- What `_sum_totals` sees of one retrieved record: its `content` field is
a JSON string that parses to a dict which may hold an `InvoiceTotal`
(`parsable`), or a string `json.loads` rejects (`unparsable`, skipped). -/
inductive ContentField where
  | parsable (invoiceTotal : Option ℚ)
  | unparsable
  deriving DecidableEq

/-- `_sum_totals` (graph.py lines 36-45): sum `InvoiceTotal` over the parsed
`content` of each record; a missing total contributes `0.0` and an
unparsable record is skipped. -/
def _sum_totals (search_results : List ContentField) : ℚ :=
  search_results.foldl
    (fun total r =>
      match r with
      | .parsable (some v) => total + v
      | .parsable none => total + 0
      | .unparsable => total) 0

/-- Round half up: `⌊q + 1/2⌋` computed on numerator and denominator (kept
`Int`-level so concrete formatting reduces).  Models the rounding of
Python's `format`; Python rounds ties on the binary float half-to-even,
which agrees except on exact ties, and no verified claim involves a tie. -/
def moneyCents (q : ℚ) : ℤ := (200 * q.num + (q.den : ℤ)).fdiv (2 * (q.den : ℤ))

/-- Insert a comma after every third character of a reversed digit string. -/
def commaRev : List Char → List Char
  | a :: b :: c :: d :: rest => a :: b :: c :: ',' :: commaRev (d :: rest)
  | l => l

/-- Python `f"{q:,.2f}"`: thousands separators and exactly two decimals. -/
def formatMoney (q : ℚ) : String :=
  let cents := moneyCents q
  let a := cents.natAbs
  let ip := (commaRev (Nat.toDigits 10 (a / 100)).reverse).reverse
  let fp := [Char.ofNat (48 + a % 100 / 10), Char.ofNat (48 + a % 10)]
  (if cents < 0 then "-" else "") ++ String.mk ip ++ "." ++ String.mk fp

/-- Subtraction of rationals computed on numerators and denominators (so
that concrete balances reduce); `subQ_eq` shows it is subtraction. -/
def subQ (a b : ℚ) : ℚ :=
  mkRat (a.num * b.den - b.num * a.den) (a.den * b.den)

theorem subQ_eq (a b : ℚ) : subQ a b = a - b := by
  rw [subQ, Rat.mkRat_eq_div]
  push_cast
  conv_rhs => rw [← Rat.num_div_den a, ← Rat.num_div_den b]
  rw [div_sub_div _ _ (by positivity : (a.den : ℚ) ≠ 0) (by positivity : (b.den : ℚ) ≠ 0)]
  ring_nf

/-- The balance answer template of `generate_answer_node`
(graph.py lines 132-138). -/
def balanceAnswer (income expense : ℚ) : String :=
  "He calculado el balance general basado en todas las facturas:\n" ++
  "- Total de Ingresos: $" ++ formatMoney income ++ "\n" ++
  "- Total de Egresos: $" ++ formatMoney expense ++ "\n" ++
  "-----------------------------------\n" ++
  "**Balance General: $" ++ formatMoney (subQ income expense) ++ "**"

/-- The empty-results answer of `generate_answer_node` (graph.py line 145). -/
def noRelevantInfoAnswer : String :=
  "No encontré información relevante para tu pregunta. Intenta ser más específico."

/-- The fixed guidance message of `unsupported_node` (graph.py line 165). -/
def unsupportedAnswer : String :=
  "No estoy seguro de cómo procesar esa pregunta. Por favor, intenta preguntarme sobre gastos, ingresos o un balance general."

/-- `decide_path` (graph.py lines 170-176) on `state.get("task_type", "")`. -/
def decide_path (task_type : String) : String :=
  if task_type = "busqueda_simple" then "simple"
  else if task_type ∈ ["calculo_balance", "resumen_general"] then "balance"
  else "unsupported"

/-- One invocation of the external text-generation service: by the router
node, the filter node, or the answer node's generation branch. -/
inductive GenCall where
  | router
  | filter
  | answer
  deriving DecidableEq

/-- `AgentState` (graph.py lines 19-26); `none` models a key the run has not
set yet (`final_answer` starts as the empty string and is set by every
terminal node). -/
structure AgentState where
  question : String
  task_type : Option String
  filter_query : Option String
  search_results : List ContentField
  income_total : ℚ
  expense_total : ℚ
  final_answer : String

/-- Environment of one `AgentGraph.run`: the reply of each external call the
graph could make.  `searchCall` is the search-index query of
`execute_search_node` (per filter string); `incomeCall` / `expenseCall` are
the two fixed queries of the balance branch. -/
structure GraphEnv where
  routerCall : Except String String
  filterCall : Except String String
  answerCall : Except String String
  searchCall : String → Except String (List ContentField)
  incomeCall : Except String (List ContentField)
  expenseCall : Except String (List ContentField)

/-- `generate_answer_node` (graph.py lines 122-161): the balance branch
formats the totals; the simple branch answers with a fixed message on empty
results and otherwise invokes the generation service.  Returns the final
answer and the generation calls made by this node. -/
def generate_answer_node (env : GraphEnv) (state : AgentState) :
    Except String (String × List GenCall) :=
  let task_type := state.task_type.getD ""
  if task_type ∈ ["calculo_balance", "resumen_general"] then
    .ok (balanceAnswer state.income_total state.expense_total, [])
  else if state.search_results = [] then
    .ok (noRelevantInfoAnswer, [])
  else
    match env.answerCall with
    | .error e => .error e
    | .ok ans => .ok (ans, [GenCall.answer])

/-- `AgentGraph.run` (graph.py lines 218-226) composed along the graph of
`_build_graph` (lines 179-215): router, then conditional edge via
`decide_path` into the simple-search branch
(`generate_filter → execute_search → generate_answer`), the balance branch
(`search_income → search_expense → generate_answer`), or `unsupported`.
There is no exception handler in `run`: an exception raised by a
text-generation call propagates to the caller (`Except.error`).  Returns
the final state and the trace of generation calls. -/
def AgentGraph.run (env : GraphEnv) (question : String) :
    Except String (AgentState × List GenCall) :=
  match env.routerCall with
  | .error e => .error e
  | .ok routerRaw =>
    let task_type := pyStripStr routerRaw
    let s1 : AgentState :=
      { question := question, task_type := some task_type, filter_query := none
        search_results := [], income_total := 0, expense_total := 0, final_answer := "" }
    let path := decide_path task_type
    if path = "simple" then
      match env.filterCall with
      | .error e => .error e
      | .ok filterRaw =>
        let filter_query := pyStripStr filterRaw
        let search_results :=
          if filter_query ≠ "" ∧ filter_query ≠ "NO_FILTER" then
            query_invoices (env.searchCall filter_query)
          else []
        let s2 := { s1 with filter_query := some filter_query
                            search_results := search_results }
        match generate_answer_node env s2 with
        | .error e => .error e
        | .ok (ans, gcalls) =>
          .ok ({ s2 with final_answer := ans },
               [GenCall.router, GenCall.filter] ++ gcalls)
    else if path = "balance" then
      let income_total := _sum_totals (query_invoices env.incomeCall)
      let expense_total := _sum_totals (query_invoices env.expenseCall)
      let s2 := { s1 with income_total := income_total, expense_total := expense_total }
      match generate_answer_node env s2 with
      | .error e => .error e
      | .ok (ans, gcalls) =>
        .ok ({ s2 with final_answer := ans }, [GenCall.router] ++ gcalls)
    else
      .ok ({ s1 with final_answer := unsupportedAnswer }, [GenCall.router])

/-- Sanity checks of the currency parser on concrete inputs (computed by the
kernel): the documented example, the dot-decimal behaviour, malformed and
absent values, stray whitespace, a negative amount. -/
theorem clean_currency_examples :
    clean_currency (some "$1.234,56") = mkRat 123456 100
    ∧ clean_currency (some "1234.56") = 123456
    ∧ clean_currency (some "abc") = 0
    ∧ clean_currency none = 0
    ∧ clean_currency (some "$ 12,5 ") = mkRat 125 10
    ∧ clean_currency (some "1.2.3") = 123
    ∧ clean_currency (some "1,2,3") = 0
    ∧ clean_currency (some "-1,5") = mkRat (-15) 10 := by
  refine ⟨by decide, by decide, by decide, rfl, by decide, by decide, by decide, by decide⟩

/-- Sanity checks of the money formatter on concrete values. -/
theorem formatMoney_examples :
    formatMoney 1000 = "1,000.00"
    ∧ formatMoney 400 = "400.00"
    ∧ formatMoney (subQ 1000 400) = "600.00"
    ∧ formatMoney (mkRat (-65) 10) = "-6.50"
    ∧ formatMoney 0 = "0.00"
    ∧ formatMoney 1234567 = "1,234,567.00"
    ∧ formatMoney (mkRat 125 100) = "1.25" := by
  refine ⟨by decide, by decide, by decide, by decide, by decide, by decide, by decide⟩

/-! ## Lemma layer for the currency parser -/

theorem dropWhile_false {p : Char → Bool} {l : List Char}
    (h : ∀ c ∈ l, p c = false) : l.dropWhile p = l := by
  cases l with
  | nil => rfl
  | cons x t =>
    rw [List.dropWhile_cons, h x (by simp)]
    simp

theorem pyStrip_eq_self {l : List Char} (h : ∀ c ∈ l, isWs c = false) :
    pyStrip l = l := by
  unfold pyStrip
  rw [dropWhile_false h, dropWhile_false (fun c hc => h c (List.mem_reverse.mp hc)),
    List.reverse_reverse]

theorem removeChar_eq_self {a : Char} {l : List Char} (h : ∀ c ∈ l, c ≠ a) :
    removeChar a l = l :=
  List.filter_eq_self.mpr (fun c hc => by simpa using h c hc)

theorem replaceChar_eq_self {a : Char} (b : Char) {l : List Char}
    (h : ∀ c ∈ l, c ≠ a) : replaceChar a b l = l := by
  induction l with
  | nil => rfl
  | cons x t ih =>
    unfold replaceChar at ih ⊢
    simp only [List.map_cons, if_neg (h x (by simp))]
    exact congrArg (x :: ·) (ih (fun c hc => h c (by simp [hc])))

theorem splitDots_no_dot {l : List Char} (h : ∀ c ∈ l, c ≠ '.') :
    splitDots l = [l] := by
  induction l with
  | nil => rfl
  | cons x t ih =>
    unfold splitDots
    rw [if_neg (h x (by simp)), ih (fun c hc => h c (by simp [hc]))]

theorem splitDots_append {a : List Char} (b : List Char)
    (h : ∀ c ∈ a, c ≠ '.') : splitDots (a ++ '.' :: b) = a :: splitDots b := by
  induction a with
  | nil =>
    simp [splitDots]
  | cons x t ih =>
    simp only [List.cons_append, splitDots, List.append_eq]
    rw [if_neg (h x (by simp)), ih (fun c hc => h c (by simp [hc]))]

theorem isDig_spec {c : Char} (h : isDig c = true) :
    c ≠ '$' ∧ c ≠ '.' ∧ c ≠ ',' ∧ c ≠ '-' ∧ c ≠ '+' ∧ isWs c = false := by
  simp only [isDig, List.mem_cons, List.not_mem_nil, or_false, decide_eq_true_eq] at h
  rcases h with rfl | rfl | rfl | rfl | rfl | rfl | rfl | rfl | rfl | rfl <;> decide

theorem parseFloat_digits {l : List Char} (hd : ∀ c ∈ l, isDig c = true)
    (hne : l ≠ []) : parseFloat l = some (mkRat (digitsToNat l) 1) := by
  obtain ⟨x, t, rfl⟩ := List.exists_cons_of_ne_nil hne
  have hx := isDig_spec (hd x (by simp))
  simp only [parseFloat]
  rw [pyStrip_eq_self (fun c hc => (isDig_spec (hd c hc)).2.2.2.2.2)]
  simp only [List.head?_cons]
  have hcond : ¬(some x = some '-' ∨ some x = some '+') := by
    simp only [Option.some.injEq]
    push_neg
    exact ⟨hx.2.2.2.1, hx.2.2.2.2.1⟩
  rw [if_neg hcond]
  rw [splitDots_no_dot (fun c hc => (isDig_spec (hd c hc)).2.1)]
  simp [applySign, hx.2.2.2.1, List.all_eq_true.mpr hd]

theorem parseFloat_digits_dot {a : List Char} (b : List Char)
    (ha : ∀ c ∈ a, isDig c = true) (hb : ∀ c ∈ b, isDig c = true)
    (hne : a ≠ [] ∨ b ≠ []) :
    parseFloat (a ++ '.' :: b) =
      some (mkRat (digitsToNat a * 10 ^ b.length + digitsToNat b) (10 ^ b.length)) := by
  have hws : ∀ c ∈ a ++ '.' :: b, isWs c = false := by
    intro c hc
    rcases List.mem_append.mp hc with hc | hc
    · exact (isDig_spec (ha c hc)).2.2.2.2.2
    · rcases List.mem_cons.mp hc with rfl | hc
      · decide
      · exact (isDig_spec (hb c hc)).2.2.2.2.2
  have hguard : a ≠ [] ∨ b ≠ [] := hne
  cases a with
  | nil =>
    have hbne : b ≠ [] := by tauto
    simp only [List.nil_append] at hws ⊢
    simp only [parseFloat]
    rw [pyStrip_eq_self hws]
    simp only [List.head?_cons]
    rw [if_neg (by decide : ¬(some '.' = some '-' ∨ some '.' = some '+'))]
    have hsplit : splitDots ('.' :: b) = [] :: splitDots b := by
      have := splitDots_append (a := []) b (by simp)
      simpa using this
    rw [hsplit, splitDots_no_dot (fun c hc => (isDig_spec (hb c hc)).2.1)]
    simp [applySign, hbne, List.all_eq_true.mpr hb, digitsToNat]
  | cons x t =>
    have hx := isDig_spec (ha x (by simp))
    simp only [List.cons_append] at hws ⊢
    simp only [parseFloat]
    rw [pyStrip_eq_self hws]
    simp only [List.head?_cons]
    have hcond : ¬(some x = some '-' ∨ some x = some '+') := by
      simp only [Option.some.injEq]
      push_neg
      exact ⟨hx.2.2.2.1, hx.2.2.2.2.1⟩
    rw [if_neg hcond]
    have hsplit : splitDots (x :: (t ++ '.' :: b)) = (x :: t) :: splitDots b := by
      have := splitDots_append (a := x :: t) b (fun c hc => (isDig_spec (ha c hc)).2.1)
      simpa using this
    rw [hsplit, splitDots_no_dot (fun c hc => (isDig_spec (hb c hc)).2.1)]
    simp [applySign, hx.2.2.2.1, List.all_eq_true.mpr ha, List.all_eq_true.mpr hb]

/-- Value of the fraction representation: the `mkRat` built by `parseFloat`
is the usual mixed decimal `ip + fp / 10 ^ k`. -/
theorem parseFloat_frac_eq (i f k : ℕ) :
    (mkRat (i * 10 ^ k + f) (10 ^ k) : ℚ) = (i : ℚ) + (f : ℚ) / 10 ^ k := by
  rw [Rat.mkRat_eq_div]
  push_cast
  have hk : ((10 : ℚ) ^ k) ≠ 0 := by positivity
  field_simp

theorem removeChar_append (a : Char) (l₁ l₂ : List Char) :
    removeChar a (l₁ ++ l₂) = removeChar a l₁ ++ removeChar a l₂ := by
  simp [removeChar]

theorem removeChar_cons_self (a : Char) (l : List Char) :
    removeChar a (a :: l) = removeChar a l := by
  simp [removeChar]

theorem removeChar_cons_ne {a c : Char} (l : List Char) (h : c ≠ a) :
    removeChar a (c :: l) = c :: removeChar a l := by
  simp [removeChar, h]

theorem replaceChar_append (a b : Char) (l₁ l₂ : List Char) :
    replaceChar a b (l₁ ++ l₂) = replaceChar a b l₁ ++ replaceChar a b l₂ := by
  simp [replaceChar]

theorem replaceChar_cons_self (a b : Char) (l : List Char) :
    replaceChar a b (a :: l) = b :: replaceChar a b l := by
  simp [replaceChar]

/-- The thousands-grouped integer part of a locale currency string: the digit
groups joined by `'.'`. -/
def dotJoined : List (List Char) → List Char
  | [] => []
  | [g] => g
  | g :: gs => g ++ '.' :: dotJoined gs

/-- A currency string of the documented locale pattern: an optional currency
symbol, then digit groups separated by the thousands separator `'.'`, then
the decimal separator `','` and the decimal digits — e.g.
`localeChars true [['1'], ['2','3','4']] ['5','6']` is `"$1.234,56"`. -/
def localeChars (dollar : Bool) (gs : List (List Char)) (frac : List Char) :
    List Char :=
  (if dollar then ['$'] else []) ++ (dotJoined gs ++ ',' :: frac)

/-- The numeric value a locale currency string denotes: the integer formed
by all the digit groups, plus the decimal fraction. -/
def localeValue (gs : List (List Char)) (frac : List Char) : ℚ :=
  (digitsToNat gs.flatten : ℚ) + (digitsToNat frac : ℚ) / 10 ^ frac.length

theorem dotJoined_chars {gs : List (List Char)}
    (h : ∀ g ∈ gs, ∀ c ∈ g, isDig c = true) :
    ∀ c ∈ dotJoined gs, isDig c = true ∨ c = '.' := by
  induction gs with
  | nil => simp [dotJoined]
  | cons g rest ih =>
    cases rest with
    | nil =>
      intro c hc
      exact Or.inl (h g (by simp) c (by simpa [dotJoined] using hc))
    | cons g2 t =>
      intro c hc
      simp only [dotJoined, List.mem_append, List.mem_cons] at hc
      rcases hc with hc | hc | hc
      · exact Or.inl (h g (by simp) c hc)
      · exact Or.inr hc
      · exact ih (fun g' hg => h g' (by simp [hg])) c hc

theorem removeChar_dotJoined {gs : List (List Char)}
    (h : ∀ g ∈ gs, ∀ c ∈ g, isDig c = true) :
    removeChar '.' (dotJoined gs) = gs.flatten := by
  induction gs with
  | nil => rfl
  | cons g rest ih =>
    cases rest with
    | nil =>
      show removeChar '.' g = List.flatten [g]
      rw [removeChar_eq_self (fun c hc => (isDig_spec (h g (by simp) c hc)).2.1)]
      simp
    | cons g2 t =>
      show removeChar '.' (g ++ '.' :: dotJoined (g2 :: t)) = g ++ (g2 :: t).flatten
      rw [removeChar_append, removeChar_cons_self,
        removeChar_eq_self (fun c hc => (isDig_spec (h g (by simp) c hc)).2.1),
        ih (fun g' hg => h g' (by simp [hg]))]

theorem flatten_digits {gs : List (List Char)}
    (h : ∀ g ∈ gs, ∀ c ∈ g, isDig c = true) :
    ∀ c ∈ gs.flatten, isDig c = true := by
  intro c hc
  rcases List.mem_flatten.mp hc with ⟨g, hg, hcg⟩
  exact h g hg c hcg

/-- Core of the locale-pattern correctness: `clean_currency` on any string of
the documented pattern returns the denoted value. -/
theorem clean_currency_locale (dollar : Bool) {gs : List (List Char)}
    {frac : List Char} (hgs : gs ≠ []) (hg : ∀ g ∈ gs, g ≠ [])
    (hgd : ∀ g ∈ gs, ∀ c ∈ g, isDig c = true)
    (hf : ∀ c ∈ frac, isDig c = true) :
    clean_currency_chars (localeChars dollar gs frac) = localeValue gs frac := by
  have hJ := dotJoined_chars hgd
  have hJdollar : ∀ c ∈ dotJoined gs ++ ',' :: frac, c ≠ '$' := by
    intro c hc
    rcases List.mem_append.mp hc with hc | hc
    · rcases hJ c hc with hd | rfl
      · exact (isDig_spec hd).1
      · decide
    · rcases List.mem_cons.mp hc with rfl | hc
      · decide
      · exact (isDig_spec (hf c hc)).1
  have hJws : ∀ c ∈ dotJoined gs ++ ',' :: frac, isWs c = false := by
    intro c hc
    rcases List.mem_append.mp hc with hc | hc
    · rcases hJ c hc with hd | rfl
      · exact (isDig_spec hd).2.2.2.2.2
      · decide
    · rcases List.mem_cons.mp hc with rfl | hc
      · decide
      · exact (isDig_spec (hf c hc)).2.2.2.2.2
  have hflatten : ∀ c ∈ gs.flatten, isDig c = true := flatten_digits hgd
  have hflatten_ne : gs.flatten ≠ [] := by
    obtain ⟨g, rest, rfl⟩ := List.exists_cons_of_ne_nil hgs
    have : g ≠ [] := hg g (by simp)
    simp only [List.flatten_cons]
    intro hcontra
    exact this (List.append_eq_nil.mp hcontra).1
  have step1 : removeChar '$' (localeChars dollar gs frac) =
      dotJoined gs ++ ',' :: frac := by
    unfold localeChars
    rw [removeChar_append, removeChar_eq_self hJdollar]
    cases dollar <;> simp [removeChar]
  have step3 : removeChar '.' (dotJoined gs ++ ',' :: frac) =
      gs.flatten ++ ',' :: frac := by
    rw [removeChar_append, removeChar_dotJoined hgd,
      removeChar_cons_ne _ (by decide),
      removeChar_eq_self (fun c hc => (isDig_spec (hf c hc)).2.1)]
  have step4 : replaceChar ',' '.' (gs.flatten ++ ',' :: frac) =
      gs.flatten ++ '.' :: frac := by
    rw [replaceChar_append, replaceChar_eq_self _ (fun c hc => (isDig_spec (hflatten c hc)).2.2.1),
      replaceChar_cons_self,
      replaceChar_eq_self _ (fun c hc => (isDig_spec (hf c hc)).2.2.1)]
  unfold clean_currency_chars
  rw [step1, pyStrip_eq_self hJws, step3, step4,
    parseFloat_digits_dot frac hflatten hf (Or.inl hflatten_ne)]
  exact parseFloat_frac_eq _ _ _

/-- Core of the dot-decimal behaviour: `clean_currency` deletes every `'.'`
first, so a dot-decimal string parses to the digits with the dot removed. -/
theorem clean_currency_dot_decimal {a b : List Char}
    (ha : ∀ c ∈ a, isDig c = true) (hb : ∀ c ∈ b, isDig c = true)
    (hne : a ++ b ≠ []) :
    clean_currency_chars (a ++ '.' :: b) = (digitsToNat (a ++ b) : ℚ) := by
  have hdigab : ∀ c ∈ a ++ b, isDig c = true := by
    intro c hc
    rcases List.mem_append.mp hc with hc | hc
    · exact ha c hc
    · exact hb c hc
  have hdollar : ∀ c ∈ a ++ '.' :: b, c ≠ '$' := by
    intro c hc
    rcases List.mem_append.mp hc with hc | hc
    · exact (isDig_spec (ha c hc)).1
    · rcases List.mem_cons.mp hc with rfl | hc
      · decide
      · exact (isDig_spec (hb c hc)).1
  have hws : ∀ c ∈ a ++ '.' :: b, isWs c = false := by
    intro c hc
    rcases List.mem_append.mp hc with hc | hc
    · exact (isDig_spec (ha c hc)).2.2.2.2.2
    · rcases List.mem_cons.mp hc with rfl | hc
      · decide
      · exact (isDig_spec (hb c hc)).2.2.2.2.2
  unfold clean_currency_chars
  rw [removeChar_eq_self hdollar, pyStrip_eq_self hws, removeChar_append,
    removeChar_cons_self,
    removeChar_eq_self (fun c hc => (isDig_spec (ha c hc)).2.1),
    removeChar_eq_self (fun c hc => (isDig_spec (hb c hc)).2.1),
    replaceChar_eq_self _ (fun c hc => (isDig_spec (hdigab c hc)).2.2.1),
    parseFloat_digits hdigab hne]
  simp

/-! ## Helper predicates and concrete environments for the claims -/

theorem confidenceThreshold_eq : confidenceThreshold = 95 / 100 := by
  rw [confidenceThreshold, Rat.mkRat_eq_div]
  norm_num

/-- The classifier stage accepted some profile: the emitidas model accepted,
or the emitidas model was rejected (without raising) and the recibidas model
accepted. -/
def classifierAccepted (env : PipelineEnv) : Prop :=
  (∃ r, _analyze_with_model MODELO_EMITIDAS env.emitidasCall = Except.ok (some r)) ∨
  (_analyze_with_model MODELO_EMITIDAS env.emitidasCall = Except.ok none ∧
   ∃ r, _analyze_with_model MODELO_RECIBIDAS env.recibidasCall = Except.ok (some r))

theorem uploads_append (l₁ l₂ : List PipelineEvent) :
    uploads (l₁ ++ l₂) = uploads l₁ ++ uploads l₂ := by
  simp [uploads]

/-- Claim C4: when the duplicate-check query against the index fails,
`_is_duplicate` reports a duplicate (fail closed), so the ingestion run is
blocked with the duplicate outcome and writes nothing. -/
theorem C4_duplicate_guard_fails_closed (msg : String) (env : PipelineEnv)
    (h : env.dupQuery = Except.error msg) :
    _is_duplicate (Except.error msg : Except String Nat) = true
    ∧ (process_and_upload_invoice env).1 = duplicateOutcome
    ∧ uploads (process_and_upload_invoice env).2 = [] := by
  have hdup : _is_duplicate env.dupQuery = true := by rw [h]; rfl
  refine ⟨rfl, ?_, ?_⟩ <;> simp [process_and_upload_invoice, hdup, uploads]

def envC4 : PipelineEnv :=
  { file_bytes := [1, 2, 3], file_path := "factura.pdf", partner_name := "JONI"
    uuidHex := "cafe", timestamp := "2024-01-01T00:00:00+00:00"
    dupQuery := Except.error "503 service unavailable"
    emitidasCall := AnalyzeOutcome.httpError "unused"
    recibidasCall := AnalyzeOutcome.httpError "unused"
    uploadCall := Except.ok [] }

theorem C4_witness :
    _is_duplicate (Except.error "503 service unavailable" : Except String Nat) = true
    ∧ (process_and_upload_invoice envC4).1 = duplicateOutcome
    ∧ uploads (process_and_upload_invoice envC4).2 = [] :=
  C4_duplicate_guard_fails_closed "503 service unavailable" envC4 rfl

/-- Claim C3: a fingerprint already present in the index (the duplicate-check
query reports at least one hit) makes the run return the duplicate failure
outcome; the document-analysis service is never invoked and nothing is
uploaded. -/
theorem C3_duplicate_short_circuit (env : PipelineEnv) (n : Nat)
    (hq : env.dupQuery = Except.ok n) (hn : 0 < n) :
    (process_and_upload_invoice env).1 = duplicateOutcome
    ∧ (∀ m, PipelineEvent.analyze m ∉ (process_and_upload_invoice env).2)
    ∧ uploads (process_and_upload_invoice env).2 = [] := by
  have hdup : _is_duplicate env.dupQuery = true := by
    rw [hq]
    simp [_is_duplicate, hn]
  refine ⟨?_, ?_, ?_⟩ <;> simp [process_and_upload_invoice, hdup, uploads]

def envC3 : PipelineEnv :=
  { file_bytes := [1, 2, 3], file_path := "factura.pdf", partner_name := "HERNAN"
    uuidHex := "cafe", timestamp := "2024-01-01T00:00:00+00:00"
    dupQuery := Except.ok 1
    emitidasCall := AnalyzeOutcome.httpError "unused"
    recibidasCall := AnalyzeOutcome.httpError "unused"
    uploadCall := Except.ok [] }

theorem C3_witness :
    (process_and_upload_invoice envC3).1 = duplicateOutcome
    ∧ (∀ m, PipelineEvent.analyze m ∉ (process_and_upload_invoice envC3).2)
    ∧ uploads (process_and_upload_invoice envC3).2 = [] :=
  C3_duplicate_short_circuit envC3 1 rfl (by decide)

/-- Claim C1: a profile's analysis is accepted iff the analyzer returned at
least one document whose detected type label equals the profile's expected
label (the model id) with confidence strictly above `0.95`; an
`HttpResponseError` for that profile is merely "not accepted"; and once the
first profile (emitidas) is accepted the run never tries the second. -/
theorem C1_classifier_acceptance (model_id : String) (result : AnalysisResult)
    (msg : String) (env : PipelineEnv)
    (hacc : ∃ r, _analyze_with_model MODELO_EMITIDAS env.emitidasCall = Except.ok (some r)) :
    (_analyze_with_model model_id (AnalyzeOutcome.ok result) = Except.ok (some result) ↔
      ∃ d ds, result.documents = d :: ds ∧ d.doc_type = model_id
        ∧ (95 : ℚ) / 100 < d.confidence)
    ∧ _analyze_with_model model_id (AnalyzeOutcome.httpError msg) = Except.ok none
    ∧ PipelineEvent.analyze MODELO_RECIBIDAS ∉ (process_and_upload_invoice env).2 := by
  refine ⟨?_, rfl, ?_⟩
  · cases hdocs : result.documents with
    | nil => simp [_analyze_with_model, hdocs]
    | cons d ds =>
      by_cases hcond : d.doc_type = model_id ∧ confidenceThreshold < d.confidence
      · simp only [_analyze_with_model, hdocs, if_pos hcond]
        constructor
        · intro _
          exact ⟨d, ds, rfl, hcond.1, confidenceThreshold_eq ▸ hcond.2⟩
        · intro _
          trivial
      · simp only [_analyze_with_model, hdocs, if_neg hcond]
        constructor
        · intro hco
          cases hco
        · rintro ⟨d', ds', heq, h1, h2⟩
          rw [List.cons.injEq] at heq
          exact absurd ⟨heq.1 ▸ h1, heq.1 ▸ (confidenceThreshold_eq ▸ h2)⟩ hcond
  · rcases hacc with ⟨r, hr⟩
    by_cases hdup : _is_duplicate env.dupQuery
    · simp [process_and_upload_invoice, hdup]
    · simp only [process_and_upload_invoice, hdup, Bool.false_eq_true, if_false, hr]
      unfold finishUpload
      cases hu : env.uploadCall with
      | error m => simp [hu, MODELO_RECIBIDAS, MODELO_EMITIDAS]
      | ok items => simp [hu, MODELO_RECIBIDAS, MODELO_EMITIDAS]

/-- An analysis result both custom models would accept for their own label
is impossible; this one is accepted by the emitidas model. -/
def acceptedEmitidasResult : AnalysisResult :=
  { documents :=
      [{ doc_type := "opendoors-emitidas-custom", confidence := mkRat 99 100
         fields := [("VendorName", "ACME SRL"), ("InvoiceDate", "2024-01-15"),
                    ("InvoiceTotal", "$1.234,56"), ("TotalTax", "$260,26")] }] }

def envC1 : PipelineEnv :=
  { file_bytes := [37, 80, 68, 70], file_path := "factura.pdf", partner_name := "MAXI"
    uuidHex := "beef", timestamp := "2024-01-01T00:00:00+00:00"
    dupQuery := Except.ok 0
    emitidasCall := AnalyzeOutcome.ok acceptedEmitidasResult
    recibidasCall := AnalyzeOutcome.httpError "unused"
    uploadCall := Except.ok [{ succeeded := true, error_message := none }] }

theorem C1_witness :
    (_analyze_with_model MODELO_EMITIDAS (AnalyzeOutcome.ok acceptedEmitidasResult) =
        Except.ok (some acceptedEmitidasResult) ↔
      ∃ d ds, acceptedEmitidasResult.documents = d :: ds ∧ d.doc_type = MODELO_EMITIDAS
        ∧ (95 : ℚ) / 100 < d.confidence)
    ∧ _analyze_with_model MODELO_EMITIDAS (AnalyzeOutcome.httpError "403 model not found") =
        Except.ok none
    ∧ PipelineEvent.analyze MODELO_RECIBIDAS ∉ (process_and_upload_invoice envC1).2 :=
  C1_classifier_acceptance MODELO_EMITIDAS acceptedEmitidasResult
    "403 model not found" envC1 ⟨acceptedEmitidasResult, rfl⟩

theorem uploads_finishUpload (env : PipelineEnv) (file_hash : String)
    (result : AnalysisResult) (invoice_type : String) (events : List PipelineEvent)
    (hev : uploads events = []) :
    uploads (finishUpload env file_hash result invoice_type events).2 =
      [_create_structured_document env.uuidHex env.timestamp
        (_extract_invoice_fields result) env.file_path invoice_type
        env.partner_name file_hash] := by
  unfold finishUpload
  cases hu : env.uploadCall with
  | error m =>
    simp only [hu]
    rw [uploads_append, hev]
    simp [uploads]
  | ok items =>
    simp only [hu]
    rw [uploads_append, hev]
    simp [uploads]

/-- Claim C9: every record the pipeline uploads to the index carries exactly
one classification tag — its `InvoiceType` is `"ingreso"` or `"egreso"` —
and its `file_hash` is the (non-empty, 64-character) SHA-256 fingerprint of
the ingested bytes. -/
theorem C9_record_invariant (env : PipelineEnv) (d : StructuredDocument)
    (hd : d ∈ uploads (process_and_upload_invoice env).2) :
    (d.InvoiceType = "ingreso" ∨ d.InvoiceType = "egreso")
    ∧ d.file_hash = _calculate_file_hash env.file_bytes
    ∧ d.file_hash.length = 64 ∧ d.file_hash ≠ "" := by
  by_cases hdup : _is_duplicate env.dupQuery
  · rw [show process_and_upload_invoice env =
        (duplicateOutcome, [PipelineEvent.dupCheck (_calculate_file_hash env.file_bytes)]) from by
      simp [process_and_upload_invoice, hdup]] at hd
    simp [uploads] at hd
  · have hnd : (_is_duplicate env.dupQuery = true) = False := by simp [hdup]
    cases hE : _analyze_with_model MODELO_EMITIDAS env.emitidasCall with
    | error msg1 =>
      simp only [process_and_upload_invoice, hnd, if_false, hE, uploads] at hd
      simp at hd
    | ok o =>
      cases o with
      | some r =>
        simp only [process_and_upload_invoice, hnd, if_false, hE] at hd
        rw [uploads_finishUpload env _ r "ingreso" _ (by simp [uploads])] at hd
        rw [List.mem_singleton] at hd
        subst hd
        refine ⟨Or.inl rfl, rfl, sha256hex_length _, sha256hex_ne_empty _⟩
      | none =>
        cases hR : _analyze_with_model MODELO_RECIBIDAS env.recibidasCall with
        | error msg2 =>
          simp only [process_and_upload_invoice, hnd, if_false, hE, hR, uploads] at hd
          simp at hd
        | ok o2 =>
          cases o2 with
          | some r2 =>
            simp only [process_and_upload_invoice, hnd, if_false, hE, hR] at hd
            rw [uploads_finishUpload env _ r2 "egreso" _ (by simp [uploads])] at hd
            rw [List.mem_singleton] at hd
            subst hd
            refine ⟨Or.inr rfl, rfl, sha256hex_length _, sha256hex_ne_empty _⟩
          | none =>
            simp only [process_and_upload_invoice, hnd, if_false, hE, hR, uploads] at hd
            simp at hd

def envC9 : PipelineEnv :=
  { file_bytes := [37, 80, 68, 70], file_path := "factura.pdf", partner_name := "LEO"
    uuidHex := "f00d", timestamp := "2024-02-02T00:00:00+00:00"
    dupQuery := Except.ok 0
    emitidasCall := AnalyzeOutcome.ok acceptedEmitidasResult
    recibidasCall := AnalyzeOutcome.httpError "unused"
    uploadCall := Except.ok [{ succeeded := true, error_message := none }] }

def docC9 : StructuredDocument :=
  _create_structured_document "f00d" "2024-02-02T00:00:00+00:00"
    (_extract_invoice_fields acceptedEmitidasResult) "factura.pdf" "ingreso" "LEO"
    (_calculate_file_hash [37, 80, 68, 70])

theorem C9_witness :
    docC9 ∈ uploads (process_and_upload_invoice envC9).2
    ∧ ((docC9.InvoiceType = "ingreso" ∨ docC9.InvoiceType = "egreso")
       ∧ docC9.file_hash = _calculate_file_hash envC9.file_bytes
       ∧ docC9.file_hash.length = 64 ∧ docC9.file_hash ≠ "") := by
  have hE : _analyze_with_model MODELO_EMITIDAS envC9.emitidasCall =
      Except.ok (some acceptedEmitidasResult) := rfl
  have hmem : docC9 ∈ uploads (process_and_upload_invoice envC9).2 := by
    have hb : _is_duplicate envC9.dupQuery = false := rfl
    have hnd : (_is_duplicate envC9.dupQuery = true) = False := by simp [hb]
    simp only [process_and_upload_invoice, hnd, if_false, hE]
    rw [uploads_finishUpload envC9 _ acceptedEmitidasResult "ingreso" _ (by simp [uploads])]
    simp [docC9, envC9]
  exact ⟨hmem, C9_record_invariant envC9 docC9 hmem⟩

def envC2 : PipelineEnv :=
  { file_bytes := [10, 20, 30], file_path := "factura.pdf", partner_name := "JONI"
    uuidHex := "aa11", timestamp := "2024-03-03T00:00:00+00:00"
    dupQuery := Except.ok 0
    emitidasCall := AnalyzeOutcome.ok acceptedEmitidasResult
    recibidasCall := AnalyzeOutcome.httpError "unused"
    uploadCall := Except.ok [{ succeeded := false, error_message := some "quota exceeded" }] }

/-- Claim C2 counterexample: on a failed index write the returned dictionary
is `{"success": False, "invoice_data": ..., "invoice_type": ...}` — it
carries `success = false` but no discriminator (`error` key) and no message
at all, contradicting the claim that every failing stage returns a
discriminator from `{duplicate, classification_failed, write_failed,
unexpected}` together with a human-readable message. -/
theorem C2_counterexample :
    (process_and_upload_invoice envC2).1.success = false
    ∧ (process_and_upload_invoice envC2).1.error = none
    ∧ (process_and_upload_invoice envC2).1.message = none :=
  ⟨rfl, rfl, rfl⟩

/-- Claim C2 (amended): every failing stage aborts the run with
`success = false`, at most one index write is ever attempted, and no write
happens unless a profile was accepted; but only the duplicate case carries a
discriminator (`error = "duplicate"`) with a human-readable message —
classification exhaustion, an unexpected exception from either analyzer
model, and an exception raised by the index write all put the exception text
in the `error` field, and an index write that merely reports failure returns
`success = false` with neither an `error` nor a `message` key. -/
theorem C2_amended_failure_outcomes (env : PipelineEnv) :
    (uploads (process_and_upload_invoice env).2).length ≤ 1
    ∧ (_is_duplicate env.dupQuery = true →
        (process_and_upload_invoice env).1 = duplicateOutcome
        ∧ uploads (process_and_upload_invoice env).2 = [])
    ∧ (_is_duplicate env.dupQuery = false →
       _analyze_with_model MODELO_EMITIDAS env.emitidasCall = Except.ok none →
       _analyze_with_model MODELO_RECIBIDAS env.recibidasCall = Except.ok none →
        (process_and_upload_invoice env).1 = exceptionOutcome classificationFailedMessage
        ∧ uploads (process_and_upload_invoice env).2 = [])
    ∧ (∀ msg, _is_duplicate env.dupQuery = false →
        _analyze_with_model MODELO_EMITIDAS env.emitidasCall = Except.error msg →
        (process_and_upload_invoice env).1 = exceptionOutcome msg
        ∧ uploads (process_and_upload_invoice env).2 = [])
    ∧ (∀ msg, _is_duplicate env.dupQuery = false →
        _analyze_with_model MODELO_EMITIDAS env.emitidasCall = Except.ok none →
        _analyze_with_model MODELO_RECIBIDAS env.recibidasCall = Except.error msg →
        (process_and_upload_invoice env).1 = exceptionOutcome msg
        ∧ uploads (process_and_upload_invoice env).2 = [])
    ∧ (∀ msg, _is_duplicate env.dupQuery = false → classifierAccepted env →
        env.uploadCall = Except.error msg →
        (process_and_upload_invoice env).1 = exceptionOutcome msg)
    ∧ (∀ items, _is_duplicate env.dupQuery = false → classifierAccepted env →
        env.uploadCall = Except.ok items → uploadSucceeded items = false →
        (process_and_upload_invoice env).1.success = false
        ∧ (process_and_upload_invoice env).1.error = none
        ∧ (process_and_upload_invoice env).1.message = none)
    ∧ (uploads (process_and_upload_invoice env).2 ≠ [] → classifierAccepted env) := by
  refine ⟨?_, ?_, ?_, ?_, ?_, ?_, ?_, ?_⟩
  · by_cases hdup : _is_duplicate env.dupQuery
    · simp [process_and_upload_invoice, hdup, uploads]
    · have hnd : (_is_duplicate env.dupQuery = true) = False := by simp [hdup]
      cases hE : _analyze_with_model MODELO_EMITIDAS env.emitidasCall with
      | error m => simp [process_and_upload_invoice, hnd, hE, uploads]
      | ok o =>
        cases o with
        | some r =>
          simp only [process_and_upload_invoice, hnd, if_false, hE]
          rw [uploads_finishUpload env _ r "ingreso" _ (by simp [uploads])]
          simp
        | none =>
          cases hR : _analyze_with_model MODELO_RECIBIDAS env.recibidasCall with
          | error m => simp [process_and_upload_invoice, hnd, hE, hR, uploads]
          | ok o2 =>
            cases o2 with
            | some r2 =>
              simp only [process_and_upload_invoice, hnd, if_false, hE, hR]
              rw [uploads_finishUpload env _ r2 "egreso" _ (by simp [uploads])]
              simp
            | none => simp [process_and_upload_invoice, hnd, hE, hR, uploads]
  · intro hdup
    constructor <;> simp [process_and_upload_invoice, hdup, uploads]
  · intro hdup hE hR
    have hnd : (_is_duplicate env.dupQuery = true) = False := by simp [hdup]
    constructor <;> simp [process_and_upload_invoice, hnd, hE, hR, uploads]
  · intro msg hdup hE
    have hnd : (_is_duplicate env.dupQuery = true) = False := by simp [hdup]
    constructor <;> simp [process_and_upload_invoice, hnd, hE, uploads]
  · intro msg hdup hE hR
    have hnd : (_is_duplicate env.dupQuery = true) = False := by simp [hdup]
    constructor <;> simp [process_and_upload_invoice, hnd, hE, hR, uploads]
  · intro msg hdup hAcc hU
    have hnd : (_is_duplicate env.dupQuery = true) = False := by simp [hdup]
    rcases hAcc with ⟨r, hE⟩ | ⟨hE0, r, hR⟩
    · simp [process_and_upload_invoice, hnd, hE, finishUpload, hU]
    · simp [process_and_upload_invoice, hnd, hE0, hR, finishUpload, hU]
  · intro items hdup hAcc hU hFail
    have hnd : (_is_duplicate env.dupQuery = true) = False := by simp [hdup]
    rcases hAcc with ⟨r, hE⟩ | ⟨hE0, r, hR⟩
    · refine ⟨?_, ?_, ?_⟩ <;>
        simp [process_and_upload_invoice, hnd, hE, finishUpload, hU, hFail]
    · refine ⟨?_, ?_, ?_⟩ <;>
        simp [process_and_upload_invoice, hnd, hE0, hR, finishUpload, hU, hFail]
  · intro hne
    by_cases hdup : _is_duplicate env.dupQuery
    · exact absurd (by simp [process_and_upload_invoice, hdup, uploads]) hne
    · have hnd : (_is_duplicate env.dupQuery = true) = False := by simp [hdup]
      cases hE : _analyze_with_model MODELO_EMITIDAS env.emitidasCall with
      | error m =>
        exact absurd (by simp [process_and_upload_invoice, hnd, hE, uploads]) hne
      | ok o =>
        cases o with
        | some r => exact Or.inl ⟨r, hE⟩
        | none =>
          cases hR : _analyze_with_model MODELO_RECIBIDAS env.recibidasCall with
          | error m =>
            exact absurd (by simp [process_and_upload_invoice, hnd, hE, hR, uploads]) hne
          | ok o2 =>
            cases o2 with
            | some r2 => exact Or.inr ⟨hE, r2, hR⟩
            | none =>
              exact absurd (by simp [process_and_upload_invoice, hnd, hE, hR, uploads]) hne

def envC2dup : PipelineEnv :=
  { file_bytes := [10, 20, 30], file_path := "factura.pdf", partner_name := "JONI"
    uuidHex := "aa22", timestamp := "2024-03-03T00:00:00+00:00"
    dupQuery := Except.ok 2
    emitidasCall := AnalyzeOutcome.httpError "unused"
    recibidasCall := AnalyzeOutcome.httpError "unused"
    uploadCall := Except.ok [] }

def envC2cls : PipelineEnv :=
  { file_bytes := [10, 20, 30], file_path := "factura.pdf", partner_name := "JONI"
    uuidHex := "aa33", timestamp := "2024-03-03T00:00:00+00:00"
    dupQuery := Except.ok 0
    emitidasCall := AnalyzeOutcome.httpError "422 model cannot process"
    recibidasCall := AnalyzeOutcome.httpError "422 model cannot process"
    uploadCall := Except.ok [] }

def envC2err : PipelineEnv :=
  { file_bytes := [10, 20, 30], file_path := "factura.pdf", partner_name := "JONI"
    uuidHex := "aa44", timestamp := "2024-03-03T00:00:00+00:00"
    dupQuery := Except.ok 0
    emitidasCall := AnalyzeOutcome.unexpectedError "socket timeout"
    recibidasCall := AnalyzeOutcome.httpError "unused"
    uploadCall := Except.ok [] }

def envC2rerr : PipelineEnv :=
  { file_bytes := [10, 20, 30], file_path := "factura.pdf", partner_name := "JONI"
    uuidHex := "aa55", timestamp := "2024-03-03T00:00:00+00:00"
    dupQuery := Except.ok 0
    emitidasCall := AnalyzeOutcome.httpError "422 model cannot process"
    recibidasCall := AnalyzeOutcome.unexpectedError "disk full"
    uploadCall := Except.ok [] }

def envC2uerr : PipelineEnv :=
  { file_bytes := [10, 20, 30], file_path := "factura.pdf", partner_name := "JONI"
    uuidHex := "aa66", timestamp := "2024-03-03T00:00:00+00:00"
    dupQuery := Except.ok 0
    emitidasCall := AnalyzeOutcome.ok acceptedEmitidasResult
    recibidasCall := AnalyzeOutcome.httpError "unused"
    uploadCall := Except.error "connection reset" }

theorem C2_witness :
    ((process_and_upload_invoice envC2dup).1 = duplicateOutcome
      ∧ uploads (process_and_upload_invoice envC2dup).2 = [])
    ∧ ((process_and_upload_invoice envC2cls).1 = exceptionOutcome classificationFailedMessage
      ∧ uploads (process_and_upload_invoice envC2cls).2 = [])
    ∧ ((process_and_upload_invoice envC2err).1 = exceptionOutcome "socket timeout"
      ∧ uploads (process_and_upload_invoice envC2err).2 = [])
    ∧ ((process_and_upload_invoice envC2rerr).1 = exceptionOutcome "disk full"
      ∧ uploads (process_and_upload_invoice envC2rerr).2 = [])
    ∧ (process_and_upload_invoice envC2uerr).1 = exceptionOutcome "connection reset"
    ∧ ((process_and_upload_invoice envC2).1.success = false
      ∧ (process_and_upload_invoice envC2).1.error = none
      ∧ (process_and_upload_invoice envC2).1.message = none)
    ∧ (uploads (process_and_upload_invoice envC2).2).length ≤ 1
    ∧ classifierAccepted envC2 := by
  have hne : uploads (process_and_upload_invoice envC2).2 ≠ [] := by
    have hnd : (_is_duplicate envC2.dupQuery = true) = False := by
      simp [show _is_duplicate envC2.dupQuery = false from rfl]
    simp only [process_and_upload_invoice, hnd, if_false,
      show _analyze_with_model MODELO_EMITIDAS envC2.emitidasCall =
        Except.ok (some acceptedEmitidasResult) from rfl]
    rw [uploads_finishUpload envC2 _ acceptedEmitidasResult "ingreso" _ (by simp [uploads])]
    simp
  exact ⟨(C2_amended_failure_outcomes envC2dup).2.1 rfl,
    (C2_amended_failure_outcomes envC2cls).2.2.1 rfl rfl rfl,
    (C2_amended_failure_outcomes envC2err).2.2.2.1 "socket timeout" rfl rfl,
    (C2_amended_failure_outcomes envC2rerr).2.2.2.2.1 "disk full" rfl rfl rfl,
    (C2_amended_failure_outcomes envC2uerr).2.2.2.2.2.1 "connection reset" rfl
      (Or.inl ⟨acceptedEmitidasResult, rfl⟩) rfl,
    (C2_amended_failure_outcomes envC2).2.2.2.2.2.2.1
      [{ succeeded := false, error_message := some "quota exceeded" }] rfl
      (Or.inl ⟨acceptedEmitidasResult, rfl⟩) rfl rfl,
    (C2_amended_failure_outcomes envC2).1,
    (C2_amended_failure_outcomes envC2).2.2.2.2.2.2.2 hne⟩

def genvC8 : GraphEnv :=
  { routerCall := Except.error "text generation service unavailable"
    filterCall := Except.ok "NO_FILTER"
    answerCall := Except.ok ""
    searchCall := fun _ => Except.ok []
    incomeCall := Except.ok []
    expenseCall := Except.ok [] }

/-- Claim C8 counterexample: `AgentGraph.run` has no exception handler — when
the text-generation call of the router node raises, `run` propagates the
exception to its caller instead of returning a well-formed
`success = false` result object. -/
theorem C8_counterexample :
    AgentGraph.run genvC8 "cual es el balance general?" =
      Except.error "text generation service unavailable" := rfl

/-- Claim C8 (amended): the ingestion entry point and `query_invoices` never
propagate failures — `process_and_upload_invoice` reports `success = true`
exactly when every stage succeeded (and `success = false` on every failure
path), and a failed search query yields `[]` — but `AgentGraph.run`
propagates text-generation service failures to its caller uncaught (the
catch sits in the API layer outside this core), and the failed-write
outcome carries no explanatory message. -/
theorem C8_amended_no_uncaught_failure (env : PipelineEnv) (genv : GraphEnv)
    (question emsg : String) (hr : genv.routerCall = Except.error emsg) :
    ((process_and_upload_invoice env).1.success = true ↔
      (_is_duplicate env.dupQuery = false ∧ classifierAccepted env ∧
       ∃ items, env.uploadCall = Except.ok items ∧ uploadSucceeded items = true))
    ∧ (∀ msg, query_invoices (Except.error msg : Except String (List ContentField)) = [])
    ∧ AgentGraph.run genv question = Except.error emsg := by
  refine ⟨?_, fun msg => rfl, by simp [AgentGraph.run, hr]⟩
  by_cases hdup : _is_duplicate env.dupQuery
  · simp [process_and_upload_invoice, hdup, duplicateOutcome]
  · have hnd : (_is_duplicate env.dupQuery = true) = False := by simp [hdup]
    have hdupf : _is_duplicate env.dupQuery = false := by
      simpa using hdup
    cases hE : _analyze_with_model MODELO_EMITIDAS env.emitidasCall with
    | error m =>
      simp [process_and_upload_invoice, hnd, hE, exceptionOutcome, classifierAccepted]
    | ok o =>
      cases o with
      | some r =>
        cases hU : env.uploadCall with
        | error m =>
          simp [process_and_upload_invoice, hnd, hE, finishUpload, hU,
            exceptionOutcome, classifierAccepted]
        | ok items =>
          simp [process_and_upload_invoice, hnd, hE, finishUpload, hU,
            classifierAccepted, hdupf]
      | none =>
        cases hR : _analyze_with_model MODELO_RECIBIDAS env.recibidasCall with
        | error m =>
          simp [process_and_upload_invoice, hnd, hE, hR, exceptionOutcome,
            classifierAccepted]
        | ok o2 =>
          cases o2 with
          | some r2 =>
            cases hU : env.uploadCall with
            | error m =>
              simp [process_and_upload_invoice, hnd, hE, hR, finishUpload, hU,
                exceptionOutcome, classifierAccepted]
            | ok items =>
              simp [process_and_upload_invoice, hnd, hE, hR, finishUpload, hU,
                classifierAccepted, hdupf]
          | none =>
            simp [process_and_upload_invoice, hnd, hE, hR, exceptionOutcome,
              classifierAccepted]

def envC8 : PipelineEnv :=
  { file_bytes := [37, 80, 68, 70], file_path := "factura.pdf", partner_name := "JONI"
    uuidHex := "bb55", timestamp := "2024-04-04T00:00:00+00:00"
    dupQuery := Except.ok 0
    emitidasCall := AnalyzeOutcome.ok acceptedEmitidasResult
    recibidasCall := AnalyzeOutcome.httpError "unused"
    uploadCall := Except.ok [{ succeeded := true, error_message := none }] }

theorem C8_witness :
    ((process_and_upload_invoice envC8).1.success = true ↔
      (_is_duplicate envC8.dupQuery = false ∧ classifierAccepted envC8 ∧
       ∃ items, envC8.uploadCall = Except.ok items ∧ uploadSucceeded items = true))
    ∧ (∀ msg, query_invoices (Except.error msg : Except String (List ContentField)) = [])
    ∧ AgentGraph.run genvC8 "hola" = Except.error "text generation service unavailable" :=
  C8_amended_no_uncaught_failure envC8 genvC8 "hola"
    "text generation service unavailable" rfl

/-- Claim C6: any router output other than the three recognized labels routes
to the unsupported path, whose run returns the fixed guidance message with
no further text-generation call (only the router's own call appears in the
trace) and is a normal result, not an error. -/
theorem C6_unsupported_routing (env : GraphEnv) (question raw : String)
    (hr : env.routerCall = Except.ok raw)
    (hv : pyStripStr raw ∉ (["busqueda_simple", "calculo_balance", "resumen_general"] : List String)) :
    decide_path (pyStripStr raw) = "unsupported"
    ∧ AgentGraph.run env question =
        Except.ok
          ({ question := question, task_type := some (pyStripStr raw)
             filter_query := none, search_results := [], income_total := 0
             expense_total := 0, final_answer := unsupportedAnswer },
           [GenCall.router]) := by
  simp only [List.mem_cons, List.not_mem_nil, or_false, not_or] at hv
  have hd : decide_path (pyStripStr raw) = "unsupported" := by
    unfold decide_path
    rw [if_neg hv.1, if_neg (by simp [hv.2.1, hv.2.2])]
  refine ⟨hd, ?_⟩
  unfold AgentGraph.run
  rw [hr]
  simp only [hd]
  rw [if_neg (by decide), if_neg (by decide)]

def genvC6 : GraphEnv :=
  { routerCall := Except.ok "  charla_casual  "
    filterCall := Except.ok "unused"
    answerCall := Except.ok "unused"
    searchCall := fun _ => Except.ok []
    incomeCall := Except.ok []
    expenseCall := Except.ok [] }

theorem C6_witness :
    decide_path (pyStripStr "  charla_casual  ") = "unsupported"
    ∧ AgentGraph.run genvC6 "che, como andas?" =
        Except.ok
          ({ question := "che, como andas?"
             task_type := some (pyStripStr "  charla_casual  ")
             filter_query := none, search_results := [], income_total := 0
             expense_total := 0, final_answer := unsupportedAnswer },
           [GenCall.router]) :=
  C6_unsupported_routing genvC6 "che, como andas?" "  charla_casual  " rfl (by decide)

/-- Does the pattern occur at the start of the text? -/
def startsWithSeq : List Char → List Char → Bool
  | [], _ => true
  | _ :: _, [] => false
  | a :: as, b :: bs => a = b && startsWithSeq as bs

/-- Does the pattern occur anywhere in the text? -/
def containsSeq : List Char → List Char → Bool
  | needle, [] => needle.isEmpty
  | needle, c :: t => startsWithSeq needle (c :: t) || containsSeq needle t

/-- Substring occurrence on `String` (for stating "the answer contains"). -/
def containsStr (hay needle : String) : Bool := containsSeq needle.data hay.data

/-- Claim C7: with task category `calculo_balance` (or `resumen_general`) the
answer node composes the fixed balance template; the reported balance is the
formatted difference `income - expense`, the answer also carries both input
totals, and at `income = 1000.0, expense = 400.0` it contains `"600.00"`,
`"1,000.00"` and `"400.00"`. -/
theorem C7_balance_answer (env : GraphEnv) (state : AgentState) (income expense : ℚ)
    (ht : state.task_type = some "calculo_balance" ∨
          state.task_type = some "resumen_general") :
    generate_answer_node env state =
      Except.ok (balanceAnswer state.income_total state.expense_total, [])
    ∧ (∃ u v, balanceAnswer income expense = u ++ formatMoney (income - expense) ++ v)
    ∧ (∃ u v, balanceAnswer income expense = u ++ formatMoney income ++ v)
    ∧ (∃ u v, balanceAnswer income expense = u ++ formatMoney expense ++ v)
    ∧ containsStr (balanceAnswer 1000 400) "600.00" = true
    ∧ containsStr (balanceAnswer 1000 400) "1,000.00" = true
    ∧ containsStr (balanceAnswer 1000 400) "400.00" = true := by
  refine ⟨?_, ?_, ?_, ?_, by decide, by decide, by decide⟩
  · rcases ht with h | h <;> simp [generate_answer_node, h]
  · refine ⟨"He calculado el balance general basado en todas las facturas:\n" ++
      "- Total de Ingresos: $" ++ formatMoney income ++ "\n" ++
      "- Total de Egresos: $" ++ formatMoney expense ++ "\n" ++
      "-----------------------------------\n" ++ "**Balance General: $", "**", ?_⟩
    rw [← subQ_eq]
    simp [balanceAnswer, String.append_assoc]
  · refine ⟨"He calculado el balance general basado en todas las facturas:\n" ++
      "- Total de Ingresos: $",
      "\n" ++ "- Total de Egresos: $" ++ formatMoney expense ++ "\n" ++
      "-----------------------------------\n" ++ "**Balance General: $" ++
      formatMoney (subQ income expense) ++ "**", ?_⟩
    simp [balanceAnswer, String.append_assoc]
  · refine ⟨"He calculado el balance general basado en todas las facturas:\n" ++
      "- Total de Ingresos: $" ++ formatMoney income ++ "\n" ++
      "- Total de Egresos: $",
      "\n" ++ "-----------------------------------\n" ++ "**Balance General: $" ++
      formatMoney (subQ income expense) ++ "**", ?_⟩
    simp [balanceAnswer, String.append_assoc]

def genvC7 : GraphEnv :=
  { routerCall := Except.ok "calculo_balance"
    filterCall := Except.ok "unused"
    answerCall := Except.ok "unused"
    searchCall := fun _ => Except.ok []
    incomeCall := Except.ok []
    expenseCall := Except.ok [] }

def stateC7 : AgentState :=
  { question := "cual es el balance general?", task_type := some "calculo_balance"
    filter_query := none, search_results := [], income_total := 1000
    expense_total := 400, final_answer := "" }

theorem C7_witness :
    generate_answer_node genvC7 stateC7 =
      Except.ok (balanceAnswer stateC7.income_total stateC7.expense_total, [])
    ∧ (∃ u v, balanceAnswer 1000 400 = u ++ formatMoney ((1000 : ℚ) - 400) ++ v)
    ∧ (∃ u v, balanceAnswer 1000 400 = u ++ formatMoney (1000 : ℚ) ++ v)
    ∧ (∃ u v, balanceAnswer 1000 400 = u ++ formatMoney (400 : ℚ) ++ v)
    ∧ containsStr (balanceAnswer 1000 400) "600.00" = true
    ∧ containsStr (balanceAnswer 1000 400) "1,000.00" = true
    ∧ containsStr (balanceAnswer 1000 400) "400.00" = true :=
  C7_balance_answer genvC7 stateC7 1000 400 (Or.inl rfl)

/-- Claim C5: every currency string of the documented locale pattern
(optional `$`, `.` as thousands separator, `,` as decimal separator) parses
to the value it denotes; an absent value and a malformed string both parse
to `0.0` instead of failing. -/
theorem C5_locale_currency_parsing (dollar : Bool) (gs : List (List Char))
    (frac : List Char) (hgs : gs ≠ []) (hg : ∀ g ∈ gs, g ≠ [])
    (hgd : ∀ g ∈ gs, ∀ c ∈ g, isDig c = true)
    (hf : ∀ c ∈ frac, isDig c = true) :
    clean_currency (some (String.mk (localeChars dollar gs frac))) = localeValue gs frac
    ∧ clean_currency none = 0
    ∧ clean_currency (some "once mil") = 0 :=
  ⟨clean_currency_locale dollar hgs hg hgd hf, rfl, by decide⟩

theorem C5_witness :
    clean_currency (some (String.mk (localeChars true [['1'], ['2', '3', '4']] ['5', '6']))) =
      localeValue [['1'], ['2', '3', '4']] ['5', '6']
    ∧ clean_currency none = 0
    ∧ clean_currency (some "once mil") = 0 :=
  C5_locale_currency_parsing true [['1'], ['2', '3', '4']] ['5', '6']
    (by decide) (by decide) (by decide) (by decide)

/-- Claim C10: `clean_currency` deletes every `'.'` before conversion, so a
string using `'.'` as its decimal separator (and holding no `','`) parses to
the integer formed by removing the dot — `"1234.56"` parses to `123456.0`,
not `1234.56`. -/
theorem C10_dot_decimal_misparse (a b : List Char)
    (ha : ∀ c ∈ a, isDig c = true) (hb : ∀ c ∈ b, isDig c = true)
    (hne : a ++ b ≠ []) :
    clean_currency (some (String.mk (a ++ '.' :: b))) = (digitsToNat (a ++ b) : ℚ)
    ∧ clean_currency (some "1234.56") = 123456
    ∧ clean_currency (some "1234.56") ≠ mkRat 123456 100 :=
  ⟨clean_currency_dot_decimal ha hb hne, by decide, by decide⟩

theorem C10_witness :
    clean_currency (some (String.mk (['1', '2', '3', '4'] ++ '.' :: ['5', '6']))) =
      (digitsToNat (['1', '2', '3', '4'] ++ ['5', '6']) : ℚ)
    ∧ clean_currency (some "1234.56") = 123456
    ∧ clean_currency (some "1234.56") ≠ mkRat 123456 100 :=
  C10_dot_decimal_misparse ['1', '2', '3', '4'] ['5', '6']
    (by decide) (by decide) (by decide)
